import Mathlib

/-!
Verification of the retention-classification logic of the s3bucketpolicy
scripts.

The repository contains several near-duplicate cleanup scripts.  The two
that carry the classification rules the specification describes are:

* `latest.py` — `list_old_objects` partitions the listed objects into four
  lists: `objects_to_delete`, `other_storage_class_objects`,
  `excluded_objects` and `day_protected_objects`.  Only STANDARD objects
  older than the threshold are deletable, objects created on Wednesday (2)
  or Sunday (6) are protected, and keys matching an excluded prefix are
  set aside before anything else.
* `s3bucketlambda.py` — `list_old_objects` partitions the listed objects
  into three lists: `objects_to_delete`, `skipped_glacier_objects` and
  `skipped_deep_archive_objects`, using per-storage-class minimum ages to
  avoid early-deletion fees.
* `s3_cleanup_script_standard.py` — `S3ObjectCleaner.delete_objects`
  performs (or dry-runs) the batched deletion.

Timestamps are modelled as integers (seconds since the Unix epoch, UTC),
exactly the granularity at which the Python code compares `datetime`
values and at which `timedelta(days=n)` equals `n * 86400` seconds.
Python's floor conventions (`timedelta.days`, `%`) coincide with Lean's
`Int` `/` and `%` (both floor for a positive divisor).
-/

/-- One object record as surfaced by `list_objects_v2`: key, last-modified
instant (seconds since the Unix epoch, UTC), size in bytes, and the
optional `StorageClass` field (absent for plain STANDARD objects, read in
the Python code as `obj.get('StorageClass', 'STANDARD')`). -/
structure ObjRecord where
  key : String
  lastModified : Int
  size : Int
  storageClass : Option String
deriving DecidableEq, Repr

/-- `s.startswith(p)` of Python on the underlying character lists. -/
def startsWithL : List Char → List Char → Bool
  | _, [] => true
  | [], _ :: _ => false
  | c :: s, p :: ps => c == p && startsWithL s ps

/-- `any(object_key.startswith(prefix) for prefix in excluded_prefixes)`
from `latest.py`. -/
def matchesExcluded (ps : List String) (key : String) : Bool :=
  ps.any (fun p => startsWithL key.data p.data)

/-- Python's `datetime.weekday()` (Monday = 0 … Sunday = 6) for a UTC
instant given in epoch seconds; day 0 of the epoch (1970-01-01) was a
Thursday, weekday 3. -/
def pyWeekday (t : Int) : Int := (t / 86400 + 3) % 7

/-- `(now - obj['LastModified']).days` as computed in `export_to_csv` of
both scripts: whole elapsed days, floored (Python `timedelta.days`
floors, also for negative spans). -/
def ageDays (now lastModified : Int) : Int := (now - lastModified) / 86400

/-- Configuration of `list_old_objects` in `latest.py`: `days_threshold`
and `excluded_prefixes`. -/
structure LatestConfig where
  daysThreshold : Int
  excludedPrefixes : List String
deriving DecidableEq, Repr

/-- Which of the four output lists of `latest.py`'s `list_old_objects` a
record lands in; `dropped` marks a record appended to none of them (the
loop has no branch for a STANDARD object that is not old enough). -/
inductive LatestAction where
  | toDelete
  | otherStorage
  | excluded
  | dayProtected
  | dropped
deriving DecidableEq, Repr

/-- The per-record branching of the loop body of `list_old_objects` in
`latest.py` (lines 62–110): prefix exclusion first, then the STANDARD +
older-than-cutoff test with the Wednesday/Sunday (weekday 2/6) guard,
then the non-STANDARD fallback; anything else is appended nowhere. -/
def latestClassify (cfg : LatestConfig) (now : Int) (o : ObjRecord) : LatestAction :=
  if matchesExcluded cfg.excludedPrefixes o.key then LatestAction.excluded
  else
    let storageClass := o.storageClass.getD "STANDARD"
    if storageClass = "STANDARD" ∧ o.lastModified < now - cfg.daysThreshold * 86400 then
      if pyWeekday o.lastModified = 2 ∨ pyWeekday o.lastModified = 6 then
        LatestAction.dayProtected
      else
        LatestAction.toDelete
    else if storageClass ≠ "STANDARD" then
      LatestAction.otherStorage
    else
      LatestAction.dropped

/-- The list pass of `list_old_objects` in `latest.py`, returning
`(objects_to_delete, other_storage_class_objects, excluded_objects,
day_protected_objects)` in the order the loop appends them. -/
def latestListOldObjects (cfg : LatestConfig) (now : Int) :
    List ObjRecord → List ObjRecord × List ObjRecord × List ObjRecord × List ObjRecord
  | [] => ([], [], [], [])
  | o :: rest =>
    let r := latestListOldObjects cfg now rest
    match latestClassify cfg now o with
    | LatestAction.toDelete => (o :: r.1, r.2.1, r.2.2.1, r.2.2.2)
    | LatestAction.otherStorage => (r.1, o :: r.2.1, r.2.2.1, r.2.2.2)
    | LatestAction.excluded => (r.1, r.2.1, o :: r.2.2.1, r.2.2.2)
    | LatestAction.dayProtected => (r.1, r.2.1, r.2.2.1, o :: r.2.2.2)
    | LatestAction.dropped => r

/-- Configuration of `list_old_objects` in `s3bucketlambda.py`:
`days_threshold`, `glacier_min_days`, `deep_archive_min_days`. -/
structure LambdaConfig where
  daysThreshold : Int
  glacierMinDays : Int
  deepArchiveMinDays : Int
deriving DecidableEq, Repr

/-- Which of the three output lists of `s3bucketlambda.py`'s
`list_old_objects` a record lands in; `dropped` marks a record appended
to none of them (there is no branch for objects that fail every age
test). -/
inductive LambdaAction where
  | toDelete
  | skippedGlacier
  | skippedDeepArchive
  | dropped
deriving DecidableEq, Repr

/-- The per-record branching of the loop body of `list_old_objects` in
`s3bucketlambda.py` (lines 54–86).  The Python code derives the three
cutoffs from `datetime.now(timezone.utc)` during setup; the embedding
takes the single instant `now` as a parameter, so each cutoff is
`now - minDays * 86400`. -/
def s3lambdaClassify (cfg : LambdaConfig) (now : Int) (o : ObjRecord) : LambdaAction :=
  let sc := o.storageClass.getD "STANDARD"
  let standardCutoff := now - cfg.daysThreshold * 86400
  let glacierCutoff := now - cfg.glacierMinDays * 86400
  let deepArchiveCutoff := now - cfg.deepArchiveMinDays * 86400
  if ((sc = "GLACIER" ∨ sc = "GLACIER_IR") ∧ o.lastModified < glacierCutoff)
      ∨ (sc = "DEEP_ARCHIVE" ∧ o.lastModified < deepArchiveCutoff)
      ∨ (¬ (sc = "GLACIER" ∨ sc = "GLACIER_IR" ∨ sc = "DEEP_ARCHIVE")
          ∧ o.lastModified < standardCutoff) then
    LambdaAction.toDelete
  else if (sc = "GLACIER" ∨ sc = "GLACIER_IR") ∧ o.lastModified < standardCutoff then
    LambdaAction.skippedGlacier
  else if sc = "DEEP_ARCHIVE" ∧ o.lastModified < standardCutoff then
    LambdaAction.skippedDeepArchive
  else
    LambdaAction.dropped

/-- The list pass of `list_old_objects` in `s3bucketlambda.py`, returning
`(objects_to_delete, skipped_glacier_objects,
skipped_deep_archive_objects)`. -/
def lambdaListOldObjects (cfg : LambdaConfig) (now : Int) :
    List ObjRecord → List ObjRecord × List ObjRecord × List ObjRecord
  | [] => ([], [], [])
  | o :: rest =>
    let r := lambdaListOldObjects cfg now rest
    match s3lambdaClassify cfg now o with
    | LambdaAction.toDelete => (o :: r.1, r.2.1, r.2.2)
    | LambdaAction.skippedGlacier => (r.1, o :: r.2.1, r.2.2)
    | LambdaAction.skippedDeepArchive => (r.1, r.2.1, o :: r.2.2)
    | LambdaAction.dropped => r

/-- The cutoff instant against which `s3bucketlambda.py` compares a
record's `LastModified` in its deletion test: the glacier cutoff for
GLACIER / GLACIER_IR, the deep-archive cutoff for DEEP_ARCHIVE, the
standard cutoff otherwise (a record is deleted exactly when it is older
than this, i.e. its age is at least the applicable minimum). -/
def applicableCutoff (cfg : LambdaConfig) (now : Int) (o : ObjRecord) : Int :=
  let sc := o.storageClass.getD "STANDARD"
  if sc = "GLACIER" ∨ sc = "GLACIER_IR" then now - cfg.glacierMinDays * 86400
  else if sc = "DEEP_ARCHIVE" then now - cfg.deepArchiveMinDays * 86400
  else now - cfg.daysThreshold * 86400

/-- `remaining_days = 91 - age_days` as hard-coded for skipped Glacier
rows in `export_to_csv` of `s3bucketlambda.py` (line 150). -/
def glacierRemainingDays (age : Int) : Int := 91 - age

/-- `remaining_days = 181 - age_days` as hard-coded for skipped Deep
Archive rows in `export_to_csv` of `s3bucketlambda.py` (line 167). -/
def deepArchiveRemainingDays (age : Int) : Int := 181 - age

/-- Occurrence count of a record in a list (membership with
multiplicity). -/
def countOcc (o : ObjRecord) (l : List ObjRecord) : Nat :=
  l.countP (fun x => decide (x = o))

/-- Total number of occurrences of a record across the four output lists
of `latest.py`'s `list_old_objects`. -/
def count4 (o : ObjRecord)
    (r : List ObjRecord × List ObjRecord × List ObjRecord × List ObjRecord) : Nat :=
  countOcc o r.1 + countOcc o r.2.1 + countOcc o r.2.2.1 + countOcc o r.2.2.2

/-- Total number of occurrences of a record across the three output lists
of `s3bucketlambda.py`'s `list_old_objects`. -/
def count3 (o : ObjRecord)
    (r : List ObjRecord × List ObjRecord × List ObjRecord) : Nat :=
  countOcc o r.1 + countOcc o r.2.1 + countOcc o r.2.2

/-- Per-batch answer of the storage service to one `delete_objects` call:
keys actually deleted, and per-key errors as (key, code, message). -/
structure BatchResponse where
  deleted : List String
  errors : List (String × String × String)
deriving Repr

/-- Result dictionary of `S3ObjectCleaner.delete_objects`:
`{'deleted_count': …, 'failed_count': …, 'errors': […]}`. -/
structure DeleteOutcome where
  deletedCount : Nat
  failedCount : Nat
  errors : List String
deriving DecidableEq, Repr

/-- `range(0, len(objects_to_delete), 1000)` batching of
`S3ObjectCleaner.delete_objects`. -/
def chunks1000 (l : List String) : List (List String) :=
  if h : l = [] then []
  else l.take 1000 :: chunks1000 (l.drop 1000)
termination_by l.length
decreasing_by
  simp only [List.length_drop]
  have hp : 0 < l.length := List.length_pos.mpr h
  omega

/-- The non-dry-run batch loop of `S3ObjectCleaner.delete_objects`: each
batch either gets a `BatchResponse` (counting `Deleted` entries and
`Errors` entries, formatting one message per error) or raises a
`ClientError` (the whole batch counts as failed, one message is
recorded). -/
def runDeleteBatches (respond : List String → Except String BatchResponse) :
    List (List String) → DeleteOutcome
  | [] => ⟨0, 0, []⟩
  | b :: bs =>
    let rest := runDeleteBatches respond bs
    match respond b with
    | Except.ok r =>
      ⟨r.deleted.length + rest.deletedCount,
       r.errors.length + rest.failedCount,
       r.errors.map
           (fun e => "Failed to delete " ++ e.1 ++ ": " ++ e.2.1 ++ " - " ++ e.2.2)
         ++ rest.errors⟩
    | Except.error e =>
      ⟨rest.deletedCount,
       b.length + rest.failedCount,
       ("Batch deletion failed: " ++ e) :: rest.errors⟩

/-- `S3ObjectCleaner.delete_objects` of `s3_cleanup_script_standard.py`.
The first component is the list of batched delete requests actually
issued to the storage service (each a list of keys); the second is the
returned result dictionary.  An empty candidate list returns immediately;
a dry run logs and returns `len(objects_to_delete)` as `deleted_count`
without issuing any request; otherwise the keys are deleted in batches of
1000 through `respond`, the storage service's behaviour. -/
def cleanerDeleteObjects (objs : List ObjRecord) (dryRun : Bool)
    (respond : List String → Except String BatchResponse) :
    List (List String) × DeleteOutcome :=
  if objs = [] then ([], ⟨0, 0, []⟩)
  else if dryRun then ([], ⟨objs.length, 0, []⟩)
  else
    let batches := chunks1000 (objs.map (fun o => o.key))
    (batches, runDeleteBatches respond batches)
theorem latest_filters (cfg : LatestConfig) (now : Int) (objs : List ObjRecord) :
    latestListOldObjects cfg now objs =
      (objs.filter (fun o => decide (latestClassify cfg now o = LatestAction.toDelete)),
       objs.filter (fun o => decide (latestClassify cfg now o = LatestAction.otherStorage)),
       objs.filter (fun o => decide (latestClassify cfg now o = LatestAction.excluded)),
       objs.filter (fun o => decide (latestClassify cfg now o = LatestAction.dayProtected))) := by
  induction objs with
  | nil => simp [latestListOldObjects]
  | cons o rest ih =>
    simp only [latestListOldObjects, List.filter_cons, ih]
    rcases h : latestClassify cfg now o <;> simp [h]

theorem lambda_filters (cfg : LambdaConfig) (now : Int) (objs : List ObjRecord) :
    lambdaListOldObjects cfg now objs =
      (objs.filter (fun o => decide (s3lambdaClassify cfg now o = LambdaAction.toDelete)),
       objs.filter (fun o => decide (s3lambdaClassify cfg now o = LambdaAction.skippedGlacier)),
       objs.filter (fun o => decide (s3lambdaClassify cfg now o = LambdaAction.skippedDeepArchive))) := by
  induction objs with
  | nil => simp [lambdaListOldObjects]
  | cons o rest ih =>
    simp only [lambdaListOldObjects, List.filter_cons, ih]
    rcases h : s3lambdaClassify cfg now o <;> simp [h]

theorem countOcc_filter (o : ObjRecord) (p : ObjRecord → Bool) (l : List ObjRecord) :
    countOcc o (l.filter p) = if p o then countOcc o l else 0 := by
  induction l with
  | nil => simp [countOcc]
  | cons x rest ih =>
    simp only [countOcc, List.filter_cons, List.countP_cons] at ih ⊢
    by_cases hx : x = o
    · subst hx
      by_cases hp : p x <;> simp [hp, ih]
    · by_cases hp : p x <;> simp [hp, hx, ih]

theorem latestClassify_dropped_iff (cfg : LatestConfig) (now : Int) (o : ObjRecord) :
    latestClassify cfg now o = LatestAction.dropped ↔
      matchesExcluded cfg.excludedPrefixes o.key = false
      ∧ o.storageClass.getD "STANDARD" = "STANDARD"
      ∧ now - cfg.daysThreshold * 86400 ≤ o.lastModified := by
  simp only [latestClassify]
  split_ifs with h1 h2 h3 h4 <;> simp_all <;> omega

theorem lambdaClassify_dropped_iff (cfg : LambdaConfig) (now : Int) (o : ObjRecord) :
    s3lambdaClassify cfg now o = LambdaAction.dropped ↔
      applicableCutoff cfg now o ≤ o.lastModified
      ∧ now - cfg.daysThreshold * 86400 ≤ o.lastModified := by
  simp only [s3lambdaClassify, applicableCutoff]
  by_cases hg : o.storageClass.getD "STANDARD" = "GLACIER" <;>
    by_cases hgi : o.storageClass.getD "STANDARD" = "GLACIER_IR" <;>
      by_cases hd : o.storageClass.getD "STANDARD" = "DEEP_ARCHIVE" <;>
        simp_all <;> (try split_ifs <;> simp_all) <;> omega

theorem lambdaClassify_toDelete_iff (cfg : LambdaConfig) (now : Int) (o : ObjRecord) :
    s3lambdaClassify cfg now o = LambdaAction.toDelete ↔
      o.lastModified < applicableCutoff cfg now o := by
  simp only [s3lambdaClassify, applicableCutoff]
  by_cases hg : o.storageClass.getD "STANDARD" = "GLACIER" <;>
    by_cases hgi : o.storageClass.getD "STANDARD" = "GLACIER_IR" <;>
      by_cases hd : o.storageClass.getD "STANDARD" = "DEEP_ARCHIVE" <;>
        simp_all <;> (try split_ifs <;> simp_all) <;> omega
/-- Claim C1 (amended): in both classification passes, each occurrence of
a record in the input appears in exactly one of the output lists when the
per-record classification places it somewhere, and in none of them when
the classification drops it (a STANDARD object not older than the
threshold in `latest.py`; an object failing every age test in
`s3bucketlambda.py`) — so "exactly one list" holds only for records the
pass does not drop. -/
theorem listing_partition :
    ∀ (cfgL : LatestConfig) (cfgG : LambdaConfig) (now : Int) (o : ObjRecord)
      (objs : List ObjRecord),
      count4 o (latestListOldObjects cfgL now objs)
          = countOcc o objs
              * (if latestClassify cfgL now o = LatestAction.dropped then 0 else 1)
      ∧ count3 o (lambdaListOldObjects cfgG now objs)
          = countOcc o objs
              * (if s3lambdaClassify cfgG now o = LambdaAction.dropped then 0 else 1) := by
  intro cfgL cfgG now o objs
  constructor
  · rw [latest_filters]
    simp only [count4, countOcc_filter]
    rcases h : latestClassify cfgL now o <;> simp [h]
  · rw [lambda_filters]
    simp only [count3, countOcc_filter]
    rcases h : s3lambdaClassify cfgG now o <;> simp [h]

/-- Claim C1, counterexample to the claim as stated: a STANDARD object
aged 5 days under a 15-day threshold is listed by the bucket scan but
appears in none (not exactly one) of the four output lists of
`latest.py`'s pass. -/
theorem listing_partition_counterexample :
    (⟨"report.txt", 95 * 86400, 10, none⟩ : ObjRecord)
        ∈ [(⟨"report.txt", 95 * 86400, 10, none⟩ : ObjRecord)]
    ∧ count4 ⟨"report.txt", 95 * 86400, 10, none⟩
        (latestListOldObjects ⟨15, []⟩ (100 * 86400)
          [⟨"report.txt", 95 * 86400, 10, none⟩]) = 0 := by
  decide

/-- Claim C2 (confirmed): a record whose key starts with one of the
configured excluded prefixes is classified into `excluded_objects`,
whatever its age, storage class or weekday — the prefix check is the
first branch of the loop. -/
theorem excluded_wins_over_all (cfg : LatestConfig) (now : Int) (o : ObjRecord)
    (h : matchesExcluded cfg.excludedPrefixes o.key = true) :
    latestClassify cfg now o = LatestAction.excluded := by
  simp [latestClassify, h]

/-- Claim C2, witness: prefix `"logs/"` excluded, a 400-day-old GLACIER
object under key `"logs/2020-01-01.txt"` is classified excluded. -/
theorem excluded_wins_over_all_witness :
    matchesExcluded ["logs/"] "logs/2020-01-01.txt" = true
    ∧ latestClassify ⟨15, ["logs/"]⟩ (500 * 86400)
        ⟨"logs/2020-01-01.txt", 100 * 86400, 5, some "GLACIER"⟩
      = LatestAction.excluded :=
  ⟨by decide,
   excluded_wins_over_all ⟨15, ["logs/"]⟩ (500 * 86400)
     ⟨"logs/2020-01-01.txt", 100 * 86400, 5, some "GLACIER"⟩ (by decide)⟩
/-- Claim C3 (amended): in `s3bucketlambda.py`, the deletion cutoff is
the glacier one for GLACIER / GLACIER_IR, the deep-archive one for
DEEP_ARCHIVE and the standard one otherwise, a record with no storage
class behaving exactly like an explicit STANDARD one; a record younger
than its applicable minimum is never deleted, but it ends up unlisted
(RetainedTooYoung) only when it also fails the standard threshold — a
Glacier / Deep-Archive record past the standard threshold is put in the
corresponding skipped list instead. -/
theorem minimum_age_rule :
    ∀ (cfg : LambdaConfig) (now : Int) (o : ObjRecord),
      s3lambdaClassify cfg now {o with storageClass := none}
          = s3lambdaClassify cfg now {o with storageClass := some "STANDARD"}
      ∧ (s3lambdaClassify cfg now o = LambdaAction.toDelete
          ↔ o.lastModified < applicableCutoff cfg now o)
      ∧ (applicableCutoff cfg now o ≤ o.lastModified →
          s3lambdaClassify cfg now o =
            if (o.storageClass.getD "STANDARD" = "GLACIER"
                  ∨ o.storageClass.getD "STANDARD" = "GLACIER_IR")
                ∧ o.lastModified < now - cfg.daysThreshold * 86400 then
              LambdaAction.skippedGlacier
            else if o.storageClass.getD "STANDARD" = "DEEP_ARCHIVE"
                ∧ o.lastModified < now - cfg.daysThreshold * 86400 then
              LambdaAction.skippedDeepArchive
            else LambdaAction.dropped) := by
  intro cfg now o
  refine ⟨rfl, lambdaClassify_toDelete_iff cfg now o, ?_⟩
  intro h
  simp only [applicableCutoff] at h
  simp only [s3lambdaClassify]
  by_cases hg : o.storageClass.getD "STANDARD" = "GLACIER" <;>
    by_cases hgi : o.storageClass.getD "STANDARD" = "GLACIER_IR" <;>
      by_cases hd : o.storageClass.getD "STANDARD" = "DEEP_ARCHIVE" <;>
        simp_all

/-- Claim C3, counterexample to the claim as stated: with thresholds
(90, 91, 181), a GLACIER object aged 90.5 days is below its applicable
minimum of 91 days, yet the pass reports it in `skipped_glacier_objects`
(SkippedEarlyDeletionFee) rather than leaving it retained/unlisted. -/
theorem minimum_age_counterexample :
    applicableCutoff ⟨90, 91, 181⟩ (200 * 86400)
        ⟨"arch/a.bin", 109 * 86400 + 43200, 7, some "GLACIER"⟩
      ≤ (109 * 86400 + 43200 : Int)
    ∧ lambdaListOldObjects ⟨90, 91, 181⟩ (200 * 86400)
        [⟨"arch/a.bin", 109 * 86400 + 43200, 7, some "GLACIER"⟩]
      = ([], [⟨"arch/a.bin", 109 * 86400 + 43200, 7, some "GLACIER"⟩], [])
    ∧ s3lambdaClassify ⟨90, 91, 181⟩ (200 * 86400)
        ⟨"arch/a.bin", 109 * 86400 + 43200, 7, some "GLACIER"⟩
      ≠ LambdaAction.dropped := by
  decide

/-- Claim C3, witness: a STANDARD object aged 50 days under a 90-day
threshold is below its applicable minimum and is dropped
(RetainedTooYoung). -/
theorem minimum_age_rule_witness :
    s3lambdaClassify ⟨90, 91, 181⟩ (200 * 86400) ⟨"k.txt", 150 * 86400, 3, some "STANDARD"⟩
      = LambdaAction.dropped := by
  have h := (minimum_age_rule ⟨90, 91, 181⟩ (200 * 86400)
    ⟨"k.txt", 150 * 86400, 3, some "STANDARD"⟩).2.2 (by decide)
  rw [h]
  decide

/-- Claim C4 (code bug): `export_to_csv` in `s3bucketlambda.py` hard-codes
91 (and 181) when computing the "needs N more days" reason, even though
`glacier_min_days` is configurable.  With `glacier_min_days = 120`, a
GLACIER object aged 100 days is skipped for fee avoidance, but the
recorded reason says `-9` more days to reach 91, where the configured
minimum demands 20 more days. -/
theorem fee_reason_hardcoded :
    s3lambdaClassify ⟨90, 120, 181⟩ (200 * 86400)
        ⟨"archive.bin", 100 * 86400, 4, some "GLACIER"⟩
      = LambdaAction.skippedGlacier
    ∧ ageDays (200 * 86400) (100 * 86400) = 100
    ∧ glacierRemainingDays (ageDays (200 * 86400) (100 * 86400)) = -9
    ∧ (⟨90, 120, 181⟩ : LambdaConfig).glacierMinDays
        - ageDays (200 * 86400) (100 * 86400) = 20
    ∧ glacierRemainingDays (ageDays (200 * 86400) (100 * 86400))
        ≠ (⟨90, 120, 181⟩ : LambdaConfig).glacierMinDays
            - ageDays (200 * 86400) (100 * 86400) := by
  decide

/-- Claim C5 (confirmed): in `latest.py`, a non-excluded STANDARD object
older than the threshold whose last-modified weekday is protected
(Wednesday = 2 or Sunday = 6) is classified day-protected, not deleted. -/
theorem weekday_protection (cfg : LatestConfig) (now : Int) (o : ObjRecord)
    (h1 : matchesExcluded cfg.excludedPrefixes o.key = false)
    (h2 : o.storageClass.getD "STANDARD" = "STANDARD")
    (h3 : o.lastModified < now - cfg.daysThreshold * 86400)
    (h4 : pyWeekday o.lastModified = 2 ∨ pyWeekday o.lastModified = 6) :
    latestClassify cfg now o = LatestAction.dayProtected
    ∧ latestClassify cfg now o ≠ LatestAction.toDelete := by
  have hmain : latestClassify cfg now o = LatestAction.dayProtected := by
    rcases h4 with h4 | h4 <;> simp [latestClassify, h1, h2, h3, h4]
  exact ⟨hmain, by simp [hmain]⟩

/-- Claim C5, witness: threshold 15 days, a 20-day-old STANDARD object
last modified on Wednesday 1970-01-07 is protected. -/
theorem weekday_protection_witness :
    matchesExcluded [] "notes.txt" = false
    ∧ pyWeekday (6 * 86400) = 2
    ∧ latestClassify ⟨15, []⟩ (26 * 86400) ⟨"notes.txt", 6 * 86400, 2, some "STANDARD"⟩
        = LatestAction.dayProtected :=
  ⟨by decide, by decide,
   (weekday_protection ⟨15, []⟩ (26 * 86400) ⟨"notes.txt", 6 * 86400, 2, some "STANDARD"⟩
     (by decide) (by decide) (by decide) (Or.inl (by decide))).1⟩
/-- Claim C6 (amended): `age_days` is a deterministic function of `now`
and `lastModified` (it is defined as a function of exactly those two
values), but an object modified in the future is NOT treated as age 0:
its age is the floored, hence negative, number of elapsed days —
`ageDays` is negative exactly when `lastModified` is in the future. -/
theorem age_days_sign : ∀ now lm : Int, ageDays now lm < 0 ↔ now < lm := by
  intro now lm
  unfold ageDays
  omega

/-- Claim C6, counterexample to the claim as stated: an object modified
one hour in the future has `age_days = -1`, not 0. -/
theorem age_days_counterexample :
    ageDays 0 3600 = -1 ∧ ageDays 0 3600 ≠ 0 ∧ ageDays 0 3600 < 0 := by
  decide

/-- Claim C7 (confirmed): with everything but the last-modified instant
held fixed, making a record older (smaller `lastModified`, larger age)
never moves it back into the dropped / retained-too-young outcome in
either variant's classification. -/
theorem age_monotonicity :
    ∀ (cfgL : LatestConfig) (cfgG : LambdaConfig) (now lm1 lm2 : Int) (o : ObjRecord),
      lm2 ≤ lm1 →
      (latestClassify cfgL now {o with lastModified := lm1} ≠ LatestAction.dropped →
        latestClassify cfgL now {o with lastModified := lm2} ≠ LatestAction.dropped)
      ∧ (s3lambdaClassify cfgG now {o with lastModified := lm1} ≠ LambdaAction.dropped →
        s3lambdaClassify cfgG now {o with lastModified := lm2} ≠ LambdaAction.dropped) := by
  intro cfgL cfgG now lm1 lm2 o h
  constructor
  · intro h1 h2
    apply h1
    rw [latestClassify_dropped_iff] at h2 ⊢
    simp only at h2 ⊢
    exact ⟨h2.1, h2.2.1, by omega⟩
  · intro h1 h2
    apply h1
    rw [lambdaClassify_dropped_iff] at h2 ⊢
    have hc : applicableCutoff cfgG now {o with lastModified := lm1}
        = applicableCutoff cfgG now {o with lastModified := lm2} := rfl
    simp only at h2 ⊢
    rw [hc]
    exact ⟨by omega, by omega⟩
/-- Claim C7, witness: a 100-day-old STANDARD object is deletable; the
theorem then shows the same object one day older is still not dropped,
in both variants. -/
theorem age_monotonicity_witness :
    latestClassify ⟨15, []⟩ (100 * 86400) ⟨"w.txt", -86400, 1, none⟩
        ≠ LatestAction.dropped
    ∧ s3lambdaClassify ⟨90, 91, 181⟩ (400 * 86400) ⟨"w.txt", -86400, 1, none⟩
        ≠ LambdaAction.dropped :=
  ⟨(age_monotonicity ⟨15, []⟩ ⟨90, 91, 181⟩ (100 * 86400) 0 (-86400)
      ⟨"w.txt", 0, 1, none⟩ (by decide)).1 (by decide),
   (age_monotonicity ⟨15, []⟩ ⟨90, 91, 181⟩ (400 * 86400) 0 (-86400)
      ⟨"w.txt", 0, 1, none⟩ (by decide)).2 (by decide)⟩

/-- Claim C8 (confirmed): each output list of a classification pass is a
filter of the input by a predicate of the single record, the
configuration and the one fixed `now` — classification is a pure function
of `(record, config, now)` with no hidden state and no dependence on the
other records or on their order, and two passes over the same input are
identical. -/
theorem pure_classification :
    ∀ (cfgL : LatestConfig) (cfgG : LambdaConfig) (now : Int) (objs : List ObjRecord),
      latestListOldObjects cfgL now objs =
        (objs.filter (fun o => decide (latestClassify cfgL now o = LatestAction.toDelete)),
         objs.filter (fun o => decide (latestClassify cfgL now o = LatestAction.otherStorage)),
         objs.filter (fun o => decide (latestClassify cfgL now o = LatestAction.excluded)),
         objs.filter (fun o => decide (latestClassify cfgL now o = LatestAction.dayProtected)))
      ∧ lambdaListOldObjects cfgG now objs =
        (objs.filter (fun o => decide (s3lambdaClassify cfgG now o = LambdaAction.toDelete)),
         objs.filter (fun o => decide (s3lambdaClassify cfgG now o = LambdaAction.skippedGlacier)),
         objs.filter
           (fun o => decide (s3lambdaClassify cfgG now o = LambdaAction.skippedDeepArchive))) :=
  fun cfgL cfgG now objs => ⟨latest_filters cfgL now objs, lambda_filters cfgG now objs⟩

/-- Claim C9 (confirmed): in `latest.py`, a non-excluded record whose
storage class is not STANDARD is always classified into
`other_storage_class_objects`, whatever its age, and therefore never
occurs in the `objects_to_delete` component of any pass. -/
theorem non_standard_never_deleted (cfg : LatestConfig) (now : Int) (o : ObjRecord)
    (h1 : o.storageClass.getD "STANDARD" ≠ "STANDARD")
    (h2 : matchesExcluded cfg.excludedPrefixes o.key = false) :
    latestClassify cfg now o = LatestAction.otherStorage
    ∧ ∀ objs : List ObjRecord, o ∉ (latestListOldObjects cfg now objs).1 := by
  have hmain : latestClassify cfg now o = LatestAction.otherStorage := by
    simp [latestClassify, h1, h2]
  refine ⟨hmain, ?_⟩
  intro objs hmem
  rw [latest_filters] at hmem
  simp [List.mem_filter, hmain] at hmem

/-- Claim C9, witness: a thousand-day-old GLACIER object is reported as
skipped, and is absent from the deletion list of a pass over it. -/
theorem non_standard_never_deleted_witness :
    latestClassify ⟨15, []⟩ (1000 * 86400) ⟨"g.bin", 0, 8, some "GLACIER"⟩
        = LatestAction.otherStorage
    ∧ (⟨"g.bin", 0, 8, some "GLACIER"⟩ : ObjRecord)
        ∉ (latestListOldObjects ⟨15, []⟩ (1000 * 86400)
            [⟨"g.bin", 0, 8, some "GLACIER"⟩]).1 :=
  ⟨(non_standard_never_deleted ⟨15, []⟩ (1000 * 86400) ⟨"g.bin", 0, 8, some "GLACIER"⟩
      (by decide) (by decide)).1,
   (non_standard_never_deleted ⟨15, []⟩ (1000 * 86400) ⟨"g.bin", 0, 8, some "GLACIER"⟩
      (by decide) (by decide)).2 [⟨"g.bin", 0, 8, some "GLACIER"⟩]⟩

/-- Claim C10 (confirmed): `S3ObjectCleaner.delete_objects` in dry-run
mode issues no delete request to the storage service and returns
`deleted_count` equal to the length of the whole candidate list, with
`failed_count` 0 and no errors (the empty-candidate early return reports
0, which is that length). -/
theorem dry_run_frame :
    ∀ (objs : List ObjRecord) (respond : List String → Except String BatchResponse),
      cleanerDeleteObjects objs true respond = ([], ⟨objs.length, 0, []⟩) := by
  intro objs respond
  unfold cleanerDeleteObjects
  by_cases h : objs = []
  · subst h; simp
  · simp [h]
